import Mathlib

/-!
# Teacher Assistant frontend: the ChatBot page

Shallow embedding of `src/frontend/src/pages/ChatBot.js`, followed by the
topic parsing of the lesson planner, the route table and the performance
chart, each in a namespace of its own.

The React component keeps five state cells that matter here (`messages`,
`inputValue`, `loading`, `uploadedDocs`, `selectedDoc`).  Each handler is
embedded as a function on the record of those cells.  An `async` handler is
split at its `await`: the part before it runs with the state of the render
that dispatched the event, the part after it runs later, on whatever the
state is by then, but still sees the `messages` array captured by the
closure, of which only the length is read.  That captured length is the
continuation record carried between the two halves.

Every event is handled on the state left by the event before it: React
renders again after a discrete event (click, key press) and after each settled
`await`, so a handler is always the one created by the latest render.  State
updates go through the functional form `setMessages(prev => ...)` or replace
the cell, and are embedded as updates of the record.  `Date.now()` is an
argument of the step that reads it.
-/

namespace ChatBot

/-! ## Data model -/

/-- The `type` field of a message object: the string 'user' or 'bot'. -/
inductive MsgType where
  | user
  | bot
  deriving DecidableEq, Repr

/-- A message object `{ id, type, content }` of the `messages` array. -/
structure Message where
  id : Nat
  type : MsgType
  content : String
  deriving DecidableEq, Repr

/-- A document object `{ id, name, size, type }` of the `uploadedDocs` array. -/
structure Doc where
  id : Nat
  name : String
  size : Nat
  type : String
  deriving DecidableEq, Repr

/-- The state cells of the component (`useState` calls, lines 8 to 13). -/
structure State where
  messages : List Message
  inputValue : String
  loading : Bool
  uploadedDocs : List Doc
  showSidebar : Bool
  selectedDoc : Option Doc
  deriving DecidableEq, Repr

/-- The object handed to `sendChatMessage` (lines 92 to 96). -/
structure ChatRequest where
  message : String
  use_rag : Bool
  selected_document : Option Doc
  deriving DecidableEq, Repr

/-- The two fields of `response.data` that the handler reads.  A field that
is missing or null is `none`; the backend sends strings otherwise. -/
structure ResponseData where
  response : Option String
  message : Option String
  deriving DecidableEq, Repr

/-- How the awaited `sendChatMessage` call ends: it resolves with the
response data, or the `try` block throws with some error value. -/
inductive ChatOutcome where
  | success (data : ResponseData)
  | failure (error : String)
  deriving DecidableEq, Repr

/-- The JSON body of the upload response, as far as the handler reads it. -/
structure UploadData where
  status : String
  filename : String
  size : Nat
  file_type : String
  deriving DecidableEq, Repr

/-- How the awaited upload ends: `fetch` or `response.json()` throws, or the
body is parsed. -/
inductive UploadOutcome where
  | threw (error : String)
  | responded (data : UploadData)
  deriving DecidableEq, Repr

/-- What the second half of `handleSendMessage` still holds of the render
that started it: the length of the captured `messages` array. -/
structure SendCont where
  baseLen : Nat
  deriving DecidableEq, Repr

/-- What the second half of `handleFileUpload` still holds of the render
that started it: the length of the captured `messages` array. -/
structure UploadCont where
  baseLen : Nat
  deriving DecidableEq, Repr

/-! ## JavaScript string helpers -/

/-- The code points `String.prototype.trim` strips: ECMAScript WhiteSpace
and LineTerminator. -/
def isJsWhiteSpace (c : Char) : Bool :=
  let n := c.toNat
  n == 0x09 || n == 0x0A || n == 0x0B || n == 0x0C || n == 0x0D || n == 0x20 ||
  n == 0xA0 || n == 0x1680 || (0x2000 ≤ n && n ≤ 0x200A) || n == 0x2028 ||
  n == 0x2029 || n == 0x202F || n == 0x205F || n == 0x3000 || n == 0xFEFF

/-- The characters left by `trim`: white space dropped at both ends. -/
def jsTrimChars (l : List Char) : List Char :=
  ((l.dropWhile isJsWhiteSpace).reverse.dropWhile isJsWhiteSpace).reverse

/-- `String.prototype.trim`. -/
def jsTrim (s : String) : String :=
  String.mk (jsTrimChars s.toList)

/-- A text that is empty or consists of white space only. -/
def isBlank (s : String) : Prop :=
  ∀ c ∈ s.toList, isJsWhiteSpace c = true

instance (s : String) : Decidable (isBlank s) := by
  unfold isBlank; infer_instance

/-- JavaScript truthiness of a possibly missing string: present and not
empty. -/
def truthy (a : Option String) : Bool :=
  match a with
  | some x => x != ""
  | none => false

/-- The JavaScript `a || b` on two possibly missing strings. -/
def jsOrField (a b : Option String) : Option String :=
  if truthy a then a else b

/-- The JavaScript `a || b` on a possibly missing string and a string
literal. -/
def jsOr (a : Option String) (b : String) : String :=
  match a with
  | some x => if x = "" then b else x
  | none => b

/-! ## Fixed texts -/

/-- Greeting seeded by the mount effect (line 27). -/
def mountGreetingText : String :=
  "Hello! I\x27m your Teacher Assistant. Upload documents to get started, or ask me anything about teaching, curriculum, classroom management, assessment, or differentiation strategies."

/-- Greeting seeded by `handleNewChat` (line 122). -/
def newChatGreetingText : String :=
  "Hello! I\x27m your Teacher Assistant. Upload documents to get started, or ask me anything about teaching."

/-- Last operand of the reply fallback chain (line 101). -/
def defaultReplyText : String :=
  "I understood your question. Let me help you."

/-- Content of the message appended when the chat call fails (line 109). -/
def chatErrorText : String :=
  "Sorry, I encountered an error. Please try again."

/-- Content of the message appended when the upload throws (line 71). -/
def uploadErrorText : String :=
  "Failed to upload document. Please try again."

/-- Content of the message appended on a successful upload (line 62). -/
def uploadSuccessText (filename : String) : String :=
  "✓ Document \"" ++ filename ++
    "\" uploaded successfully! Now you can ask me questions about this document."

/-! ## The component -/

/-- The initial values of the `useState` calls. -/
def initialState : State :=
  { messages := [], inputValue := "", loading := false, uploadedDocs := [],
    showSidebar := true, selectedDoc := none }

/-- The mount effect (lines 21 to 31): seed the greeting into an empty log. -/
def mountEffect (s : State) : State :=
  if s.messages.length = 0 then
    { s with messages := [{ id := 1, type := .bot, content := mountGreetingText }] }
  else s

/-- The state of a freshly mounted component. -/
def mounted : State := mountEffect initialState

/-- The `onChange` of the textarea: `setInputValue(e.target.value)`. -/
def setInputValue (s : State) (text : String) : State :=
  { s with inputValue := text }

/-- The content of the reply message (line 101):
`response.data.response || response.data.message || default`. -/
def replyContent (data : ResponseData) : String :=
  jsOr (jsOrField data.response data.message) defaultReplyText

/-- The first half of `handleSendMessage` (lines 80 to 96), up to the `await`:
the new state, and the request issued with the continuation, if any. -/
def handleSendMessage (s : State) : State × Option (ChatRequest × SendCont) :=
  if jsTrim s.inputValue = "" then (s, none)
  else
    let userMessage : Message :=
      { id := s.messages.length + 1, type := .user, content := s.inputValue }
    ({ s with messages := s.messages ++ [userMessage], inputValue := "", loading := true },
     some ({ message := s.inputValue,
             use_rag := decide (s.uploadedDocs.length > 0),
             selected_document := s.selectedDoc },
           { baseLen := s.messages.length }))

/-- The second half of `handleSendMessage` (lines 98 to 114), run when the
awaited call settles. -/
def sendSettled (s : State) (k : SendCont) (o : ChatOutcome) : State :=
  match o with
  | .success data =>
    let botMessage : Message :=
      { id := k.baseLen + 2, type := .bot, content := replyContent data }
    { s with messages := s.messages ++ [botMessage], loading := false }
  | .failure _ =>
    let errorMessage : Message :=
      { id := k.baseLen + 2, type := .bot, content := chatErrorText }
    { s with messages := s.messages ++ [errorMessage], loading := false }

/-- The first half of `handleFileUpload` (lines 38 to 48): nothing happens
without a file, else the upload is started. -/
def handleFileUpload (s : State) (files : List String) : Option UploadCont :=
  match files.head? with
  | none => none
  | some _ => some { baseLen := s.messages.length }

/-- The second half of `handleFileUpload` (lines 50 to 74), run when the
awaited upload settles; `now` is the value of `Date.now()`. -/
def uploadSettled (s : State) (k : UploadCont) (o : UploadOutcome) (now : Nat) : State :=
  match o with
  | .responded data =>
    if data.status = "success" then
      let botMessage : Message :=
        { id := k.baseLen + 1, type := .bot, content := uploadSuccessText data.filename }
      { s with
        uploadedDocs := s.uploadedDocs ++
          [{ id := now, name := data.filename, size := data.size, type := data.file_type }],
        messages := s.messages ++ [botMessage] }
    else s
  | .threw _ =>
    let errorMessage : Message :=
      { id := k.baseLen + 1, type := .bot, content := uploadErrorText }
    { s with messages := s.messages ++ [errorMessage] }

/-- The handler `handleNewChat` (lines 117 to 125). -/
def handleNewChat (s : State) : State :=
  { s with messages := [{ id := 1, type := .bot, content := newChatGreetingText }] }

/-- The handler `handleDeleteDoc` (lines 127 to 132). -/
def handleDeleteDoc (s : State) (docId : Nat) : State :=
  let s1 := { s with uploadedDocs := s.uploadedDocs.filter (fun doc => doc.id != docId) }
  match s.selectedDoc with
  | some d => if d.id = docId then { s1 with selectedDoc := none } else s1
  | none => s1

/-- The `onClick` of the i-th row of the document list (line 161):
`setSelectedDoc(doc)`.  A row that is not rendered cannot be clicked. -/
def selectDoc (s : State) (i : Nat) : State :=
  match s.uploadedDocs.get? i with
  | some doc => { s with selectedDoc := some doc }
  | none => s

/-- The `onClick` of the button in the selected-document banner (line 246). -/
def deselectDoc (s : State) : State :=
  { s with selectedDoc := none }

/-- The handler `handleKeyPress` (lines 134 to 139). -/
def handleKeyPress (s : State) (key : String) (shiftKey : Bool) :
    State × Option (ChatRequest × SendCont) :=
  if key = "Enter" && !shiftKey then handleSendMessage s else (s, none)

/-- The `disabled` attribute of the send button (line 261). -/
def sendDisabled (s : State) : Bool :=
  decide (jsTrim s.inputValue = "") || s.loading

/-- A click on the send button: a disabled button dispatches nothing. -/
def clickSend (s : State) : State × Option (ChatRequest × SendCont) :=
  if sendDisabled s then (s, none) else handleSendMessage s

/-! ## The running page: events, requests in flight, requests issued -/

/-- The page together with the async handlers that are suspended at their
`await` and the trace of the requests handed to `sendChatMessage`. -/
structure Sys where
  ui : State
  sends : List SendCont
  uploads : List UploadCont
  requests : List ChatRequest
  deriving DecidableEq, Repr

/-- What can happen to the page: a user action, or an awaited call settling. -/
inductive Event where
  | typeInput (text : String)
  | clickSendButton
  | keyPress (key : String) (shiftKey : Bool)
  | chatSettles (i : Nat) (o : ChatOutcome)
  | chooseFile (files : List String)
  | uploadSettles (i : Nat) (o : UploadOutcome) (now : Nat)
  | clickNewChat
  | clickDelete (docId : Nat)
  | clickDoc (i : Nat)
  | clickDeselect
  deriving DecidableEq, Repr

/-- Record the outcome of the first half of `handleSendMessage`. -/
def launch (y : Sys) (r : State × Option (ChatRequest × SendCont)) : Sys :=
  match r.2 with
  | none => { y with ui := r.1 }
  | some (q, k) =>
    { y with ui := r.1, sends := y.sends ++ [k], requests := y.requests ++ [q] }

/-- One event on the running page. -/
def step (y : Sys) (e : Event) : Sys :=
  match e with
  | .typeInput text => { y with ui := setInputValue y.ui text }
  | .clickSendButton => launch y (clickSend y.ui)
  | .keyPress key shiftKey => launch y (handleKeyPress y.ui key shiftKey)
  | .chatSettles i o =>
    match y.sends.get? i with
    | some k => { y with ui := sendSettled y.ui k o, sends := y.sends.eraseIdx i }
    | none => y
  | .chooseFile files =>
    match handleFileUpload y.ui files with
    | some k => { y with uploads := y.uploads ++ [k] }
    | none => y
  | .uploadSettles i o now =>
    match y.uploads.get? i with
    | some k => { y with ui := uploadSettled y.ui k o now, uploads := y.uploads.eraseIdx i }
    | none => y
  | .clickNewChat => { y with ui := handleNewChat y.ui }
  | .clickDelete docId => { y with ui := handleDeleteDoc y.ui docId }
  | .clickDoc i => { y with ui := selectDoc y.ui i }
  | .clickDeselect => { y with ui := deselectDoc y.ui }

/-- A sequence of events, in order. -/
def run (y : Sys) (es : List Event) : Sys :=
  es.foldl step y

/-- The freshly mounted page: nothing in flight, nothing requested yet. -/
def start : Sys :=
  { ui := mounted, sends := [], uploads := [], requests := [] }

/-- Message ids strictly increase in log order. -/
def idsIncreasing (l : List Message) : Prop :=
  l.Pairwise (fun a b => a.id < b.id)

instance (l : List Message) : Decidable (idsIncreasing l) := by
  unfold idsIncreasing; infer_instance

/-- Chat turns one after the other: type the text, send it, and let the
call settle before anything else happens. -/
def chatTurn (s : State) (t : String × ChatOutcome) : State :=
  let r := handleSendMessage (setInputValue s t.1)
  match r.2 with
  | some (_, k) => sendSettled r.1 k t.2
  | none => r.1

/-- A sequence of chat turns, each submitted after the previous one settled. -/
def chatTurns (s : State) (ts : List (String × ChatOutcome)) : State :=
  ts.foldl chatTurn s

/-- The selected document, if any, is one of the uploaded documents. -/
def selectedListed (s : State) : Prop :=
  ∀ d, s.selectedDoc = some d → d ∈ s.uploadedDocs

/-- The page after one chat turn was sent from the fresh page and a second
text was typed while the first call is still awaited. -/
def busyPage : Sys :=
  run start [.typeInput "first", .keyPress "Enter" false, .typeInput "second"]

/-- A chat turn is sent, a file is chosen while the call is awaited, the
upload settles first and the chat call after it. -/
def uploadDuringTurn : List Event :=
  [.typeInput "hi", .keyPress "Enter" false, .chooseFile ["notes.pdf"],
   .uploadSettles 0 (.responded ⟨"success", "notes.pdf", 10, "pdf"⟩) 1700,
   .chatSettles 0 (.success ⟨some "hello", none⟩)]

/-- The ids of the log are 1, 2, 3, and so on: each message has its position
(counted from one) as id. -/
def idsSequential (l : List Message) : Prop :=
  l.map (fun m => m.id) = List.range' 1 l.length

/-- The fresh page after one successful upload, with the text "hi" typed and
no document selected. -/
def uploadedPage : Sys :=
  run start [.chooseFile ["notes.pdf"],
    .uploadSettles 0 (.responded ⟨"success", "notes.pdf", 10, "pdf"⟩) 1700,
    .typeInput "hi"]

/-- An upload response whose body does not report success. -/
def refusedUpload : UploadOutcome :=
  .responded ⟨"error", "notes.pdf", 10, "pdf"⟩

/-- The fresh page with a text of blanks, a tab and a line feed typed. -/
def blankTyped : State :=
  setInputValue mounted " \t\n"

/-- The fresh page with one chat turn sent and its call still awaited. -/
def oneTurnInFlight : Sys :=
  run start [.typeInput "first", .keyPress "Enter" false]

/-- A file is uploaded with success and its row in the list is clicked. -/
def uploadAndSelect : List Event :=
  [.chooseFile ["notes.pdf"],
   .uploadSettles 0 (.responded ⟨"success", "notes.pdf", 10, "pdf"⟩) 1700,
   .clickDoc 0]

/-- The fresh page after one successful upload, the uploaded document
selected. -/
def selectedPage : Sys :=
  run start uploadAndSelect

/-- Two files are chosen one after the other and both uploads settle, with
success, within the same millisecond. -/
def twoUploadsSameInstant : List Event :=
  [.chooseFile ["a.pdf"], .chooseFile ["b.pdf"],
   .uploadSettles 0 (.responded ⟨"success", "a.pdf", 10, "pdf"⟩) 1700,
   .uploadSettles 0 (.responded ⟨"success", "b.pdf", 20, "pdf"⟩) 1700]

/-- The fresh page with the text "hi" typed. -/
def typedHi : State :=
  setInputValue mounted "hi"

/-- The fresh page with the text "hi" sent and its call still awaited. -/
def sentHi : Sys :=
  run start [.typeInput "hi", .keyPress "Enter" false]

/-- A file is chosen and its upload settles with success. -/
def uploadInBetween : List Event :=
  [.chooseFile ["notes.pdf"],
   .uploadSettles 0 (.responded ⟨"success", "notes.pdf", 10, "pdf"⟩) 1700]

/-- The text "hi" is sent, New Chat is clicked while the call is awaited, and
the call then fails. -/
def newChatDuringFailedTurn : List Event :=
  [.typeInput "hi", .keyPress "Enter" false, .clickNewChat,
   .chatSettles 0 (.failure "timeout")]

/-- The content of the message appended when a chat turn settles (lines 101
and 109). -/
def settledContent (o : ChatOutcome) : String :=
  match o with
  | .success data => replyContent data
  | .failure _ => chatErrorText

/-- The reply text as the fallback chain reads in words: the response field
when it is a non-empty string, otherwise the message field when it is a
non-empty string, otherwise the fixed default. -/
def fallbackChainText (data : ResponseData) : String :=
  match data.response with
  | some r => if r ≠ "" then r else
    match data.message with
    | some m => if m ≠ "" then m else defaultReplyText
    | none => defaultReplyText
  | none =>
    match data.message with
    | some m => if m ≠ "" then m else defaultReplyText
    | none => defaultReplyText

end ChatBot

/-! # LessonPlanner page

Shallow embedding of the two plan handlers of
`src/frontend/src/pages/LessonPlanner.js`, up to their `await`. -/

namespace LessonPlanner

/-- The segments `split(',')` cuts a text into, on its characters: the runs
between commas, empty runs included; the empty text gives one empty
segment. -/
def splitComma : List Char → List (List Char)
  | [] => [[]]
  | c :: cs =>
    if c = ',' then [] :: splitComma cs
    else
      match splitComma cs with
      | [] => [[c]]
      | seg :: rest => (c :: seg) :: rest

/-- The segments put together again with a comma between neighbours, as
`join(',')` does. -/
def joinComma : List (List Char) → List Char
  | [] => []
  | [seg] => seg
  | seg :: rest => seg ++ ',' :: joinComma rest

/-- `String.prototype.split(',')`. -/
def jsSplitComma (s : String) : List String :=
  (splitComma s.toList).map String.mk

/-- The `topicsArray` of the handlers (lines 34 and 61):
`topics.split(',').map(t => t.trim()).filter(t => t)`. -/
def topicsArray (topics : String) : List String :=
  ((jsSplitComma topics).map ChatBot.jsTrim).filter (fun t => t != "")

/-- The state cells of the component (lines 14 to 26).  A number cell holds
what `parseInt` returned, `none` standing for NaN. -/
structure State where
  planType : String
  chapterName : String
  topics : String
  lecturesPerWeek : Option Int
  totalWeeks : Option Int
  classLevel : String
  loading : Bool
  result : String
  activeTab : String
  weekNumber : Option Int
  planDate : String
  deriving DecidableEq, Repr

/-- The object handed to `createLessonPlan` (lines 38 to 44). -/
structure LessonPlanRequest where
  chapter_name : String
  topics : List String
  lectures_per_week : Option Int
  total_weeks : Option Int
  class_level : String
  deriving DecidableEq, Repr

/-- The object handed to `createWeekPlan` (lines 65 to 70). -/
structure WeekPlanRequest where
  chapter_name : String
  week_number : Option Int
  topics : List String
  lectures_in_week : Option Int
  deriving DecidableEq, Repr

/-- What the first half of a handler does to the outside: an `alert`, or a
request to the backend. -/
inductive Effect where
  | alert (text : String)
  | createLessonPlan (r : LessonPlanRequest)
  | createWeekPlan (r : WeekPlanRequest)
  deriving DecidableEq, Repr

/-- The initial values of the `useState` calls. -/
def initialState : State :=
  { planType := "full", chapterName := "", topics := "", lecturesPerWeek := some 3,
    totalWeeks := some 4, classLevel := "high school", loading := false, result := "",
    activeTab := "full", weekNumber := some 1, planDate := "" }

/-- The first half of `handleCreateFullLessonPlan` (lines 28 to 44), up to the
`await`. -/
def handleCreateFullLessonPlan (s : State) : State × Effect :=
  if s.chapterName = "" ∨ ChatBot.jsTrim s.topics = "" then
    (s, .alert "Please fill in chapter name and topics")
  else
    ({ s with loading := true },
     .createLessonPlan
       { chapter_name := s.chapterName,
         topics := topicsArray s.topics,
         lectures_per_week := s.lecturesPerWeek,
         total_weeks := s.totalWeeks,
         class_level := s.classLevel })

/-- The first half of `handleCreateWeekPlan` (lines 55 to 70), up to the
`await`. -/
def handleCreateWeekPlan (s : State) : State × Effect :=
  if s.chapterName = "" ∨ ChatBot.jsTrim s.topics = "" then
    (s, .alert "Please fill in all fields")
  else
    ({ s with loading := true },
     .createWeekPlan
       { chapter_name := s.chapterName,
         week_number := s.weekNumber,
         topics := topicsArray s.topics,
         lectures_in_week := s.lecturesPerWeek })

/-- The form with a chapter name typed and a lone comma as topics. -/
def commaOnly : State :=
  { initialState with chapterName := "Algebra", topics := "," }

/-- The form with a chapter name and three topics typed. -/
def filledForm : State :=
  { initialState with chapterName := "Photosynthesis",
                      topics := " Light reactions, ,Dark reactions ,Chlorophyll," }

end LessonPlanner

/-! # Routing

The route table of `src/frontend/src/App.js` and the places the application
navigates to. -/

namespace App

/-- The `path` of every `Route` declared in `App` (lines 25 to 32).  All of
them are static, without parameter or splat. -/
def routes : List String :=
  ["/dashboard", "/document-analyzer", "/question-generator", "/answer-evaluator",
   "/lesson-planner", "/chatbot", "/student-analytics", "/"]

/-- A path as the router compares it: trailing slashes dropped and the
letters in lower case. -/
def normalizePath (path : String) : List Char :=
  ((path.toList.reverse.dropWhile (fun c => c == '/')).reverse).map Char.toLower

/-- The match of a pathname against a static route path, as the router of
`Routes` does it: the pathname starts with a slash and equals the route path
up to the case of the letters and to trailing slashes. -/
def matchesPath (routePath pathname : String) : Bool :=
  pathname.toList.head? == some '/' && normalizePath pathname == normalizePath routePath

/-- A pathname is served when a declared route matches it. -/
def isRoute (pathname : String) : Bool :=
  routes.any (fun routePath => matchesPath routePath pathname)

/-- The `menuItems` of `Sidebar` (lines 9 to 17), as pairs of path and label. -/
def menuItems : List (String × String) :=
  [("/dashboard", "Dashboard"), ("/student-analytics", "Student Analytics"),
   ("/document-analyzer", "Document Analyzer"), ("/question-generator", "Question Generator"),
   ("/answer-evaluator", "Answer Evaluator"), ("/lesson-planner", "Lesson Planner"),
   ("/chatbot", "Chat Bot")]

/-- The `features` of `Dashboard` (lines 10 to 53), as pairs of title and
path; a click on a card calls `navigate(feature.path)`. -/
def features : List (String × String) :=
  [("Document Analyzer", "/document-analyzer"), ("Question Generator", "/question-generator"),
   ("Answer Evaluator", "/answer-evaluator"), ("Lesson Planner", "/lesson-planner"),
   ("Chat Bot", "/chatbot"), ("Quick Tools", "/chatbot")]

/-- The handler `handleLogout` of `Navbar` (lines 10 to 15) on the entries of
`localStorage`: the three session entries are removed, and the result carries
the argument of `navigate`. -/
def handleLogout (storage : List (String × String)) : List (String × String) × String :=
  (storage.filter (fun kv => kv.1 != "token" && kv.1 != "user_id" && kv.1 != "username"),
   "/auth")

/-- Every path the application navigates to: the sidebar links, the dashboard
cards and the logout target. -/
def navigationTargets : List String :=
  menuItems.map (fun item => item.1) ++ features.map (fun f => f.2) ++ [(handleLogout []).2]

end App

/-! # Student analytics

The performance chart of `src/frontend/src/pages/StudentAnalytics.js`. -/

namespace StudentAnalytics

/-- An entry of `analytics.recent_scores`; only its `score` is read.  The
score is handed on untouched, so its type is left open. -/
structure RecentScore (ν : Type) where
  score : ν

/-- The `analytics` object as far as the chart reads it; a missing
`recent_scores` is `none`. -/
structure Analytics (ν : Type) where
  recent_scores : Option (List (RecentScore ν))

/-- A dataset of the chart: its label and its data.  The styling constants of
the object literal (colours, radii, tension) are left out. -/
structure Dataset (ν : Type) where
  label : String
  data : List ν

/-- The chart data object. -/
structure ChartData (ν : Type) where
  labels : List String
  datasets : List (Dataset ν)

/-- The constant `performanceChartData` (lines 136 to 153); `none` is
`null`, and a missing `analytics` is `none`. -/
def performanceChartData {ν : Type} (analytics : Option (Analytics ν)) :
    Option (ChartData ν) :=
  match analytics with
  | none => none
  | some a =>
    match a.recent_scores with
    | none => none
    | some rs =>
      if rs.length > 0 then
        some
          { labels := (rs.mapIdx (fun i _ => "Score " ++ toString (i + 1))).reverse,
            datasets := [{ label := "Score Trend", data := (rs.map (fun s => s.score)).reverse }] }
      else none

end StudentAnalytics

namespace ChatBot

/-! ## Lemmas on the helpers -/

theorem dropWhile_all_iff {α : Type} (p : α → Bool) (l : List α) :
    (∀ x ∈ l.dropWhile p, p x = true) ↔ ∀ x ∈ l, p x = true := by
  induction l with
  | nil => simp
  | cons a t ih =>
    by_cases h : p a = true
    · simp [List.dropWhile_cons, h, ih]
    · simp [List.dropWhile_cons, h]

theorem jsTrimChars_eq_nil_iff (l : List Char) :
    jsTrimChars l = [] ↔ ∀ c ∈ l, isJsWhiteSpace c = true := by
  unfold jsTrimChars
  rw [List.reverse_eq_nil_iff, List.dropWhile_eq_nil_iff]
  simp only [List.mem_reverse]
  exact dropWhile_all_iff _ _

/-- The guard `!inputValue.trim()` holds exactly on blank texts. -/
theorem jsTrim_eq_empty_iff (s : String) : jsTrim s = "" ↔ isBlank s := by
  unfold jsTrim isBlank
  rw [← jsTrimChars_eq_nil_iff]
  constructor
  · intro h
    have := congrArg String.toList h
    simpa using this
  · intro h
    rw [h]

theorem get?_length_append {α : Type} (l : List α) (a : α) (r : List α) :
    (l ++ a :: r).get? l.length = some a := by
  induction l with
  | nil => rfl
  | cons b t ih => simpa using ih

theorem handleSendMessage_blank (s : State) (h : isBlank s.inputValue) :
    handleSendMessage s = (s, none) := by
  unfold handleSendMessage
  rw [if_pos ((jsTrim_eq_empty_iff _).2 h)]

theorem handleSendMessage_nonblank (s : State) (h : ¬ isBlank s.inputValue) :
    handleSendMessage s =
      ({ s with
          messages := s.messages ++
            [{ id := s.messages.length + 1, type := .user, content := s.inputValue }],
          inputValue := "", loading := true },
       some ({ message := s.inputValue,
               use_rag := decide (s.uploadedDocs.length > 0),
               selected_document := s.selectedDoc },
             { baseLen := s.messages.length })) := by
  unfold handleSendMessage
  rw [if_neg (fun e => h ((jsTrim_eq_empty_iff _).1 e))]

/-! ## Single flight -/

set_option maxRecDepth 100000 in
/-- C1, evaluated on the code: while the first call is awaited (`loading` is
true) and a non-blank text is typed, the Enter key runs `handleSendMessage`,
which appends a second user message and issues a second request with a second
call in flight; the send button, disabled by `loading`, does nothing there. -/
theorem enter_while_loading_sends_again :
    busyPage.ui.loading = true ∧ ¬ isBlank busyPage.ui.inputValue ∧
    busyPage.requests.length = 1 ∧
    (step busyPage (.keyPress "Enter" false)).ui.messages =
      busyPage.ui.messages ++ [{ id := 3, type := .user, content := "second" }] ∧
    (step busyPage (.keyPress "Enter" false)).requests.length = 2 ∧
    (step busyPage (.keyPress "Enter" false)).sends.length = 2 ∧
    step busyPage .clickSendButton = busyPage := by
  decide

/-! ## Message ids -/

set_option maxRecDepth 100000 in
/-- C2, evaluated on the code: when an upload settles while a chat turn is in
flight, the upload announcement and the reply both get id 3, so the ids of the
log are 1, 2, 3, 3 and do not strictly increase. -/
theorem upload_during_turn_repeats_id :
    (run start uploadDuringTurn).ui.messages.map (fun m => m.id) = [1, 2, 3, 3] ∧
    ¬ idsIncreasing (run start uploadDuringTurn).ui.messages := by
  decide

theorem idsSequential_increasing (l : List Message) (h : idsSequential l) :
    idsIncreasing l := by
  unfold idsIncreasing
  have hp : (l.map (fun m => m.id)).Pairwise (fun a b => a < b) := by
    rw [h]; exact List.pairwise_lt_range' 1 l.length
  exact (List.pairwise_map.1 hp)

theorem chatTurn_blank (s : State) (t : String × ChatOutcome) (h : isBlank t.1) :
    (chatTurn s t).messages = s.messages := by
  unfold chatTurn
  rw [handleSendMessage_blank _ (by simpa [setInputValue] using h)]
  rfl

theorem chatTurn_nonblank (s : State) (t : String × ChatOutcome) (h : ¬ isBlank t.1) :
    ∃ c, (chatTurn s t).messages = s.messages ++
      [{ id := s.messages.length + 1, type := .user, content := t.1 },
       { id := s.messages.length + 2, type := .bot, content := c }] := by
  unfold chatTurn
  rw [handleSendMessage_nonblank _ (by simpa [setInputValue] using h)]
  cases t.2 with
  | success data => exact ⟨replyContent data, by simp [sendSettled, setInputValue]⟩
  | failure e => exact ⟨chatErrorText, by simp [sendSettled, setInputValue]⟩

theorem chatTurn_sequential (s : State) (t : String × ChatOutcome)
    (h : idsSequential s.messages) : idsSequential (chatTurn s t).messages := by
  by_cases hb : isBlank t.1
  · rw [chatTurn_blank s t hb]; exact h
  · obtain ⟨c, hc⟩ := chatTurn_nonblank s t hb
    rw [hc]
    unfold idsSequential at *
    simp only [List.map_append, List.length_append, List.map_cons, List.map_nil,
      List.length_cons, List.length_nil, h]
    have e : s.messages.length + (0 + 1 + 1) = 2 + s.messages.length := by omega
    rw [e, ← List.range'_append 1 s.messages.length 2 1]
    simp [List.range', Nat.add_comm, Nat.add_left_comm]

theorem chatTurns_sequential (ts : List (String × ChatOutcome)) (s : State)
    (h : idsSequential s.messages) : idsSequential (chatTurns s ts).messages := by
  induction ts generalizing s with
  | nil => exact h
  | cons t ts ih => exact ih (chatTurn s t) (chatTurn_sequential s t h)

theorem chatTurns_roles (ts : List (String × ChatOutcome)) (s : State) :
    (chatTurns s ts).messages.map (fun m => m.type) =
      s.messages.map (fun m => m.type) ++
        (List.replicate (ts.countP (fun t => decide (¬ isBlank t.1)))
          [MsgType.user, MsgType.bot]).flatten := by
  induction ts generalizing s with
  | nil => simp [chatTurns]
  | cons t ts ih =>
    have hstep : chatTurns s (t :: ts) = chatTurns (chatTurn s t) ts := rfl
    rw [hstep, ih (chatTurn s t)]
    by_cases hb : isBlank t.1
    · rw [chatTurn_blank s t hb, List.countP_cons_of_neg]
      simpa using hb
    · obtain ⟨c, hc⟩ := chatTurn_nonblank s t hb
      rw [hc, List.countP_cons_of_pos _ _ (by simpa using hb)]
      simp [List.replicate_succ]

/-- C3: from the freshly mounted log, after any sequence of chat turns each
submitted once the previous one has settled (with a reply or a failure), the
message ids strictly increase and the roles are the greeting followed by
user, bot, user, bot, one pair for every turn with a non-blank text. -/
theorem chatTurns_ids_increase_roles_alternate (ts : List (String × ChatOutcome)) :
    idsIncreasing (chatTurns mounted ts).messages ∧
    (chatTurns mounted ts).messages.map (fun m => m.type) =
      MsgType.bot :: (List.replicate (ts.countP (fun t => decide (¬ isBlank t.1)))
          [MsgType.user, MsgType.bot]).flatten := by
  constructor
  · exact idsSequential_increasing _ (chatTurns_sequential ts mounted rfl)
  · rw [chatTurns_roles]; rfl

/-! ## The selected document -/

theorem handleSendMessage_docs (s : State) :
    (handleSendMessage s).1.uploadedDocs = s.uploadedDocs ∧
    (handleSendMessage s).1.selectedDoc = s.selectedDoc := by
  unfold handleSendMessage
  split <;> simp

theorem sendSettled_docs (s : State) (k : SendCont) (o : ChatOutcome) :
    (sendSettled s k o).uploadedDocs = s.uploadedDocs ∧
    (sendSettled s k o).selectedDoc = s.selectedDoc := by
  cases o <;> simp [sendSettled]

theorem selectedListed_of_docs {s s1 : State}
    (h : s1.uploadedDocs = s.uploadedDocs ∧ s1.selectedDoc = s.selectedDoc)
    (hs : selectedListed s) : selectedListed s1 := by
  intro d hd
  rw [h.1]; exact hs d (by rw [← h.2]; exact hd)

theorem launch_ui (y : Sys) (r : State × Option (ChatRequest × SendCont)) :
    (launch y r).ui = r.1 := by
  unfold launch
  split <;> rfl

theorem uploadSettled_selectedListed (s : State) (k : UploadCont) (o : UploadOutcome)
    (now : Nat) (hs : selectedListed s) : selectedListed (uploadSettled s k o now) := by
  cases o with
  | threw e => exact selectedListed_of_docs ⟨rfl, rfl⟩ hs
  | responded data =>
    unfold uploadSettled
    simp only
    split
    · intro d hd
      exact List.mem_append_left _ (hs d hd)
    · exact hs

theorem handleDeleteDoc_selectedListed (s : State) (docId : Nat)
    (hs : selectedListed s) : selectedListed (handleDeleteDoc s docId) := by
  unfold handleDeleteDoc
  cases hsel : s.selectedDoc with
  | none =>
    intro d hd
    simp [hsel] at hd
  | some d0 =>
    simp only
    split
    · intro d hd
      simp at hd
    · rename_i hne
      intro d hd
      simp only [hsel, Option.some.injEq] at hd
      subst hd
      simp only [List.mem_filter]
      exact ⟨hs d0 hsel, by simpa using hne⟩

theorem selectDoc_selectedListed (s : State) (i : Nat)
    (hs : selectedListed s) : selectedListed (selectDoc s i) := by
  unfold selectDoc
  cases hg : s.uploadedDocs.get? i with
  | none => exact hs
  | some doc =>
    intro d hd
    simp only [Option.some.injEq] at hd
    subst hd
    exact List.get?_mem hg

theorem step_selectedListed (y : Sys) (e : Event) (hs : selectedListed y.ui) :
    selectedListed (step y e).ui := by
  cases e with
  | typeInput text => exact selectedListed_of_docs ⟨rfl, rfl⟩ hs
  | clickSendButton =>
    simp only [step, launch_ui, clickSend]
    split
    · exact hs
    · exact selectedListed_of_docs (handleSendMessage_docs _) hs
  | keyPress key shiftKey =>
    simp only [step, launch_ui, handleKeyPress]
    split
    · exact selectedListed_of_docs (handleSendMessage_docs _) hs
    · exact hs
  | chatSettles i o =>
    simp only [step]
    split
    · exact selectedListed_of_docs (sendSettled_docs _ _ _) hs
    · exact hs
  | chooseFile files =>
    simp only [step]
    split <;> exact hs
  | uploadSettles i o now =>
    simp only [step]
    split
    · exact uploadSettled_selectedListed _ _ _ _ hs
    · exact hs
  | clickNewChat => exact selectedListed_of_docs ⟨rfl, rfl⟩ hs
  | clickDelete docId => exact handleDeleteDoc_selectedListed _ _ hs
  | clickDoc i => exact selectDoc_selectedListed _ _ hs
  | clickDeselect =>
    intro d hd
    simp [step, deselectDoc] at hd

theorem run_selectedListed (es : List Event) (y : Sys) (hs : selectedListed y.ui) :
    selectedListed (run y es).ui := by
  induction es generalizing y with
  | nil => exact hs
  | cons e es ih => exact ih (step y e) (step_selectedListed y e hs)

/-- C4: after any sequence of events on the freshly mounted page (uploads,
clicks on listed documents, deselection, deletions, chat operations, new
chat), the selected document, if present, is an element of `uploadedDocs`. -/
theorem selected_doc_is_listed (es : List Event) : selectedListed (run start es).ui :=
  run_selectedListed es start
    (by intro d hd; simp [start, mounted, mountEffect, initialState] at hd)

/-! ## Sending -/

/-- C5: on every state whose input text is empty or white space only,
`handleSendMessage` returns the state as it was (messages, inputValue,
loading, uploadedDocs and selectedDoc unchanged) and issues no request. -/
theorem handleSendMessage_blank_is_noop (s : State) (h : isBlank s.inputValue) :
    (handleSendMessage s).1 = s ∧ (handleSendMessage s).2 = none := by
  rw [handleSendMessage_blank s h]
  exact ⟨rfl, rfl⟩

theorem handleSendMessage_blank_is_noop_witness :
    isBlank blankTyped.inputValue ∧
    ((handleSendMessage blankTyped).1 = blankTyped ∧
      (handleSendMessage blankTyped).2 = none) :=
  ⟨by decide, handleSendMessage_blank_is_noop blankTyped (by decide)⟩

set_option maxRecDepth 100000 in
/-- C6 fails as stated: with one document uploaded and none selected, the
request issued for the text "hi" has `use_rag` true. -/
theorem use_rag_true_without_selection :
    uploadedPage.ui.selectedDoc = none ∧ ¬ isBlank uploadedPage.ui.inputValue ∧
    (handleSendMessage uploadedPage.ui).2.map (fun r => r.1.use_rag) = some true := by
  decide

/-- C6, amended: for every state and non-blank input text, the request issued
by `handleSendMessage` has `use_rag` true exactly when `uploadedDocs` is not
empty, and carries `selectedDoc` as `selected_document`; so, the selected
document being a listed one, `use_rag` is true whenever a document is
selected. -/
theorem use_rag_iff_docs_uploaded (s : State) (h : ¬ isBlank s.inputValue) :
    ∃ q k, (handleSendMessage s).2 = some (q, k) ∧
      (q.use_rag = true ↔ s.uploadedDocs ≠ []) ∧
      q.selected_document = s.selectedDoc ∧
      (selectedListed s → s.selectedDoc ≠ none → q.use_rag = true) := by
  rw [handleSendMessage_nonblank s h]
  refine ⟨_, _, rfl, ?_, rfl, ?_⟩
  · simp [List.length_pos]
  · intro hs hsel
    cases hd : s.selectedDoc with
    | none => exact absurd hd hsel
    | some d =>
      have hm := hs d hd
      simp only [gt_iff_lt, decide_eq_true_eq]
      exact List.length_pos_of_mem hm

set_option maxRecDepth 100000 in
theorem use_rag_iff_docs_uploaded_witness :
    ¬ isBlank uploadedPage.ui.inputValue ∧
    ∃ q k, (handleSendMessage uploadedPage.ui).2 = some (q, k) ∧
      (q.use_rag = true ↔ uploadedPage.ui.uploadedDocs ≠ []) ∧
      q.selected_document = uploadedPage.ui.selectedDoc ∧
      (selectedListed uploadedPage.ui → uploadedPage.ui.selectedDoc ≠ none →
        q.use_rag = true) :=
  ⟨by decide, use_rag_iff_docs_uploaded uploadedPage.ui (by decide)⟩

/-! ## Settling a chat turn -/

set_option maxRecDepth 100000 in
/-- C7 fails as stated: when the assistant returns the empty string (and no
message field), the appended message carries the default text, not the
returned text. -/
theorem empty_reply_replaced_by_default :
    (chatTurn mounted ("hi", .success ⟨some "", none⟩)).messages.getLast? =
      some { id := 3, type := .bot, content := defaultReplyText } ∧
    defaultReplyText ≠ "" := by
  decide

/-- C7, amended: for every successfully settled chat turn whose returned text
is a non-empty string, the message appended to the log carries exactly the
returned text; an empty returned text gives way to the message field or the
default text. -/
theorem nonempty_reply_is_carried (s : State) (k : SendCont) (text : String)
    (msg : Option String) (h : text ≠ "") :
    (sendSettled s k (.success ⟨some text, msg⟩)).messages =
      s.messages ++ [{ id := k.baseLen + 2, type := .bot, content := text }] ∧
    (sendSettled s k (.success ⟨some "", msg⟩)).messages =
      s.messages ++
        [{ id := k.baseLen + 2, type := .bot, content := jsOr msg defaultReplyText }] := by
  constructor
  · simp [sendSettled, replyContent, jsOrField, truthy, jsOr, h]
  · simp [sendSettled, replyContent, jsOrField, truthy]

theorem nonempty_reply_is_carried_witness :
    ("hello" : String) ≠ "" ∧
    ((sendSettled mounted ⟨1⟩ (.success ⟨some "hello", none⟩)).messages =
      mounted.messages ++ [{ id := 1 + 2, type := .bot, content := "hello" }] ∧
    (sendSettled mounted ⟨1⟩ (.success ⟨some "", none⟩)).messages =
      mounted.messages ++
        [{ id := 1 + 2, type := .bot, content := jsOr none defaultReplyText }]) :=
  ⟨by decide, nonempty_reply_is_carried mounted ⟨1⟩ "hello" none (by decide)⟩

set_option maxRecDepth 100000 in
/-- C8, evaluated on the code: an upload whose response does not report
success leaves the whole page as it was, with no message appended, whereas an
upload that throws appends the failure notice. -/
theorem refused_upload_appends_nothing :
    (run start [.chooseFile ["notes.pdf"], .uploadSettles 0 refusedUpload 1700]).ui =
      start.ui ∧
    (run start [.chooseFile ["notes.pdf"],
        .uploadSettles 0 (.threw "network") 1700]).ui.messages =
      start.ui.messages ++ [{ id := 2, type := .bot, content := uploadErrorText }] := by
  decide

/-- C9: whatever the state when a failed chat call settles and whatever the
error value, exactly one message is appended to the log, a bot message whose
text is the fixed failure notice. -/
theorem failed_call_appends_fixed_notice (s : State) (k : SendCont) (error : String) :
    (sendSettled s k (.failure error)).messages =
      s.messages ++ [{ id := k.baseLen + 2, type := .bot, content := chatErrorText }] := by
  rfl

/-- C11: for every chat turn with a non-blank text whose call fails, the log
after the failure holds exactly one message more than the log held while the
call was awaited, which is the prior log with the user message; the same
holds whatever the state is when the failure arrives. -/
theorem failed_call_adds_one_message (s : State) (error : String)
    (h : ¬ isBlank s.inputValue) :
    ∃ q k, (handleSendMessage s).2 = some (q, k) ∧
      (handleSendMessage s).1.messages.length = s.messages.length + 1 ∧
      (sendSettled (handleSendMessage s).1 k (.failure error)).messages.length =
        (handleSendMessage s).1.messages.length + 1 ∧
      ∀ s1 : State, (sendSettled s1 k (.failure error)).messages.length =
        s1.messages.length + 1 := by
  rw [handleSendMessage_nonblank s h]
  refine ⟨_, _, rfl, ?_, ?_, ?_⟩
  · simp
  · simp [sendSettled]
  · intro s1; simp [sendSettled]

set_option maxRecDepth 100000 in
theorem failed_call_adds_one_message_witness :
    ¬ isBlank uploadedPage.ui.inputValue ∧
    ∃ q k, (handleSendMessage uploadedPage.ui).2 = some (q, k) ∧
      (handleSendMessage uploadedPage.ui).1.messages.length =
        uploadedPage.ui.messages.length + 1 ∧
      (sendSettled (handleSendMessage uploadedPage.ui).1 k (.failure "timeout")).messages.length =
        (handleSendMessage uploadedPage.ui).1.messages.length + 1 ∧
      ∀ s1 : State, (sendSettled s1 k (.failure "timeout")).messages.length =
        s1.messages.length + 1 :=
  ⟨by decide, failed_call_adds_one_message uploadedPage.ui "timeout" (by decide)⟩

/-- C12: for every state and non-blank input text, the first half of
`handleSendMessage`, before the call settles, leaves the log equal to the
prior log with one user message carrying the submitted text appended at the
end, and sets `loading` to true. -/
theorem handleSendMessage_echoes_user_message (s : State) (h : ¬ isBlank s.inputValue) :
    (handleSendMessage s).1.messages =
      s.messages ++ [{ id := s.messages.length + 1, type := .user, content := s.inputValue }] ∧
    (handleSendMessage s).1.loading = true := by
  rw [handleSendMessage_nonblank s h]
  exact ⟨rfl, rfl⟩

set_option maxRecDepth 100000 in
theorem handleSendMessage_echoes_user_message_witness :
    ¬ isBlank uploadedPage.ui.inputValue ∧
    ((handleSendMessage uploadedPage.ui).1.messages =
      uploadedPage.ui.messages ++
        [{ id := uploadedPage.ui.messages.length + 1, type := .user,
           content := uploadedPage.ui.inputValue }] ∧
    (handleSendMessage uploadedPage.ui).1.loading = true) :=
  ⟨by decide, handleSendMessage_echoes_user_message uploadedPage.ui (by decide)⟩

theorem sendSettled_loading (s : State) (k : SendCont) (o : ChatOutcome) :
    (sendSettled s k o).loading = false := by
  cases o <;> rfl

/-- C13: when exactly one chat turn is in flight, its settling with either
outcome sets `loading` to false, issues no request and leaves no turn in
flight; a non-blank text typed afterwards is then accepted by the send button,
which appends the user message and issues one more request. -/
theorem settled_turn_frees_sending (y : Sys) (k : SendCont) (o : ChatOutcome)
    (text : String) (hk : y.sends = [k]) (ht : ¬ isBlank text) :
    (step y (.chatSettles 0 o)).ui.loading = false ∧
    (step y (.chatSettles 0 o)).requests = y.requests ∧
    (step y (.chatSettles 0 o)).sends = [] ∧
    (step (step (step y (.chatSettles 0 o)) (.typeInput text)) .clickSendButton).ui.messages =
      (step y (.chatSettles 0 o)).ui.messages ++
        [{ id := (step y (.chatSettles 0 o)).ui.messages.length + 1, type := .user,
           content := text }] ∧
    (step (step (step y (.chatSettles 0 o)) (.typeInput text)) .clickSendButton).requests.length =
      y.requests.length + 1 := by
  have hstep : step y (.chatSettles 0 o) =
      { y with ui := sendSettled y.ui k o, sends := [] } := by
    simp [step, hk]
  rw [hstep]
  have hl := sendSettled_loading y.ui k o
  have hnb : ¬ isBlank (setInputValue (sendSettled y.ui k o) text).inputValue := by
    simpa [setInputValue] using ht
  have hen : sendDisabled (setInputValue (sendSettled y.ui k o) text) = false := by
    have : ¬ jsTrim text = "" := fun e => ht ((jsTrim_eq_empty_iff _).1 e)
    simp [sendDisabled, setInputValue, hl, this]
  refine ⟨hl, rfl, rfl, ?_, ?_⟩
  · simp only [step, clickSend, hen, launch_ui]
    rw [handleSendMessage_nonblank _ hnb]
    simp [setInputValue]
  · simp only [step, clickSend, hen]
    rw [handleSendMessage_nonblank _ hnb]
    simp [launch]

set_option maxRecDepth 100000 in
theorem settled_turn_frees_sending_witness :
    oneTurnInFlight.sends = [⟨1⟩] ∧ ¬ isBlank "again" ∧
    ((step oneTurnInFlight (.chatSettles 0 (.failure "timeout"))).ui.loading = false ∧
    (step oneTurnInFlight (.chatSettles 0 (.failure "timeout"))).requests =
      oneTurnInFlight.requests ∧
    (step oneTurnInFlight (.chatSettles 0 (.failure "timeout"))).sends = [] ∧
    (step (step (step oneTurnInFlight (.chatSettles 0 (.failure "timeout")))
        (.typeInput "again")) .clickSendButton).ui.messages =
      (step oneTurnInFlight (.chatSettles 0 (.failure "timeout"))).ui.messages ++
        [{ id := (step oneTurnInFlight
              (.chatSettles 0 (.failure "timeout"))).ui.messages.length + 1,
           type := .user, content := "again" }] ∧
    (step (step (step oneTurnInFlight (.chatSettles 0 (.failure "timeout")))
        (.typeInput "again")) .clickSendButton).requests.length =
      oneTurnInFlight.requests.length + 1) :=
  ⟨by decide, by decide,
    settled_turn_frees_sending oneTurnInFlight ⟨1⟩ (.failure "timeout") "again"
      (by decide) (by decide)⟩

/-! ## New chat -/

set_option maxRecDepth 100000 in
/-- C14 fails as stated: the log made by `handleNewChat` on the fresh page is
not the log the page was mounted with, the two greeting texts being
different. -/
theorem newChat_log_differs_from_mounted :
    (handleNewChat mounted).messages ≠ mounted.messages ∧
    (handleNewChat mounted).messages.map (fun m => m.content) ≠
      mounted.messages.map (fun m => m.content) := by
  decide

set_option maxRecDepth 100000 in
/-- C14, amended: the log made by `handleNewChat` agrees with the log seeded
on mount in id and role (one message, id 1, a bot message), while its text is
the new-chat greeting, which is not the text of the mount greeting. -/
theorem newChat_greeting_same_id_and_role (s : State) :
    (handleNewChat s).messages.map (fun m => (m.id, m.type)) =
      mounted.messages.map (fun m => (m.id, m.type)) ∧
    (handleNewChat s).messages.map (fun m => m.content) = [newChatGreetingText] ∧
    mounted.messages.map (fun m => m.content) = [mountGreetingText] ∧
    newChatGreetingText ≠ mountGreetingText := by
  refine ⟨rfl, rfl, rfl, by decide⟩

/-- C15: whatever the prior log, after `handleNewChat` the log holds exactly
one message, and that message is a bot message carrying the new-chat
greeting. -/
theorem handleNewChat_single_greeting (s : State) :
    (handleNewChat s).messages.length = 1 ∧
    ∃ m, (handleNewChat s).messages = [m] ∧ m.type = MsgType.bot ∧
      m.content = newChatGreetingText := by
  exact ⟨rfl, _, rfl, rfl, rfl⟩

/-- C16: `handleNewChat` leaves `uploadedDocs` and `selectedDoc` as they
were. -/
theorem handleNewChat_keeps_documents (s : State) :
    (handleNewChat s).uploadedDocs = s.uploadedDocs ∧
    (handleNewChat s).selectedDoc = s.selectedDoc := by
  exact ⟨rfl, rfl⟩

/-! ## Deleting a document -/

theorem handleDeleteDoc_twice (s : State) (docId : Nat) :
    handleDeleteDoc (handleDeleteDoc s docId) docId = handleDeleteDoc s docId := by
  unfold handleDeleteDoc
  cases hsel : s.selectedDoc with
  | none => simp [hsel, List.filter_filter]
  | some d =>
    by_cases hd : d.id = docId
    · simp [hd, List.filter_filter]
    · simp [hsel, hd, List.filter_filter]

theorem handleDeleteDoc_unknown (s : State) (docId : Nat) (hs : selectedListed s)
    (h : ∀ d ∈ s.uploadedDocs, d.id ≠ docId) : handleDeleteDoc s docId = s := by
  have hf : s.uploadedDocs.filter (fun doc => doc.id != docId) = s.uploadedDocs := by
    rw [List.filter_eq_self]
    intro d hd
    simpa using h d hd
  obtain ⟨msgs, inp, ld, docs, sb, sel⟩ := s
  cases sel with
  | none => simpa [handleDeleteDoc] using hf
  | some d =>
    have hne : d.id ≠ docId := h d (hs d rfl)
    simpa [handleDeleteDoc, hne] using hf

/-- C17: for every state and document id, `handleDeleteDoc` applied twice in
a row gives the same `uploadedDocs` and `selectedDoc` as applied once. -/
theorem handleDeleteDoc_idempotent (s : State) (docId : Nat) :
    (handleDeleteDoc (handleDeleteDoc s docId) docId).uploadedDocs =
      (handleDeleteDoc s docId).uploadedDocs ∧
    (handleDeleteDoc (handleDeleteDoc s docId) docId).selectedDoc =
      (handleDeleteDoc s docId).selectedDoc := by
  rw [handleDeleteDoc_twice]
  exact ⟨rfl, rfl⟩

/-- C18: on every state the page reaches from its mount, `handleDeleteDoc`
with an id that matches no uploaded document returns the state as it was,
`uploadedDocs` and `selectedDoc` included; the handler is a total function,
so nothing is raised. -/
theorem handleDeleteDoc_unknown_id_is_noop (es : List Event) (docId : Nat)
    (h : ∀ d ∈ (run start es).ui.uploadedDocs, d.id ≠ docId) :
    handleDeleteDoc (run start es).ui docId = (run start es).ui := by
  refine handleDeleteDoc_unknown _ docId (run_selectedListed es start ?_) h
  intro d hd
  simp [start, mounted, mountEffect, initialState] at hd

set_option maxRecDepth 100000 in
theorem handleDeleteDoc_unknown_id_is_noop_witness :
    (∀ d ∈ (run start uploadAndSelect).ui.uploadedDocs, d.id ≠ 5) ∧
    handleDeleteDoc (run start uploadAndSelect).ui 5 = (run start uploadAndSelect).ui :=
  ⟨by decide, handleDeleteDoc_unknown_id_is_noop uploadAndSelect 5 (by decide)⟩

/-- C19: on every state with a selected document, `handleDeleteDoc` called
with the id of that document leaves it out of `uploadedDocs`, together with
any other document of that id, and leaves `selectedDoc` absent. -/
theorem handleDeleteDoc_selected_removes_and_clears (s : State) (d : Doc)
    (h : s.selectedDoc = some d) :
    d ∉ (handleDeleteDoc s d.id).uploadedDocs ∧
    (∀ x ∈ (handleDeleteDoc s d.id).uploadedDocs, x.id ≠ d.id) ∧
    (handleDeleteDoc s d.id).selectedDoc = none := by
  have hu : (handleDeleteDoc s d.id).uploadedDocs =
      s.uploadedDocs.filter (fun doc => doc.id != d.id) := by
    unfold handleDeleteDoc
    simp [h]
  refine ⟨?_, ?_, ?_⟩
  · rw [hu]; simp [List.mem_filter]
  · intro x hx
    rw [hu] at hx
    simpa using (List.mem_filter.1 hx).2
  · unfold handleDeleteDoc
    simp [h]

set_option maxRecDepth 100000 in
theorem handleDeleteDoc_selected_removes_and_clears_witness :
    selectedPage.ui.selectedDoc = some ⟨1700, "notes.pdf", 10, "pdf"⟩ ∧
    ((⟨1700, "notes.pdf", 10, "pdf"⟩ : Doc) ∉
      (handleDeleteDoc selectedPage.ui (⟨1700, "notes.pdf", 10, "pdf"⟩ : Doc).id).uploadedDocs ∧
    (∀ x ∈ (handleDeleteDoc selectedPage.ui
        (⟨1700, "notes.pdf", 10, "pdf"⟩ : Doc).id).uploadedDocs,
      x.id ≠ (⟨1700, "notes.pdf", 10, "pdf"⟩ : Doc).id) ∧
    (handleDeleteDoc selectedPage.ui (⟨1700, "notes.pdf", 10, "pdf"⟩ : Doc).id).selectedDoc =
      none) :=
  ⟨by decide,
    handleDeleteDoc_selected_removes_and_clears selectedPage.ui
      ⟨1700, "notes.pdf", 10, "pdf"⟩ (by decide)⟩

/-! ## Uploading a document -/

set_option maxRecDepth 100000 in
/-- C20, evaluated on the code: two uploads that settle within the same
millisecond are both appended, with the same id, so the ids of `uploadedDocs`
are not pairwise distinct, and one delete of that id removes both
documents. -/
theorem same_instant_uploads_share_id :
    (run start twoUploadsSameInstant).ui.uploadedDocs.map (fun d => d.id) = [1700, 1700] ∧
    (run start twoUploadsSameInstant).ui.uploadedDocs.map (fun d => d.name) =
      ["a.pdf", "b.pdf"] ∧
    ¬ ((run start twoUploadsSameInstant).ui.uploadedDocs.map (fun d => d.id)).Nodup ∧
    (handleDeleteDoc (run start twoUploadsSameInstant).ui 1700).uploadedDocs = [] := by
  decide

/-- A successful upload appends the new document, with the value of
`Date.now()` as id, whatever ids are listed already; the ids of `uploadedDocs`
stay pairwise distinct when that value is not the id of a listed document. -/
theorem upload_always_appends (s : State) (k : UploadCont) (data : UploadData) (now : Nat)
    (h : data.status = "success") :
    (uploadSettled s k (.responded data) now).uploadedDocs =
      s.uploadedDocs ++
        [{ id := now, name := data.filename, size := data.size, type := data.file_type }] ∧
    ((s.uploadedDocs.map (fun d => d.id)).Nodup →
      now ∉ s.uploadedDocs.map (fun d => d.id) →
      ((uploadSettled s k (.responded data) now).uploadedDocs.map (fun d => d.id)).Nodup) := by
  have hu : (uploadSettled s k (.responded data) now).uploadedDocs =
      s.uploadedDocs ++
        [{ id := now, name := data.filename, size := data.size, type := data.file_type }] := by
    simp [uploadSettled, h]
  refine ⟨hu, ?_⟩
  intro hn hfresh
  rw [hu, List.map_append, List.nodup_append]
  refine ⟨hn, by simp, ?_⟩
  intro a ha hb
  simp only [List.map_cons, List.map_nil, List.mem_singleton] at hb
  subst hb
  exact hfresh ha

theorem upload_always_appends_witness :
    (⟨"success", "b.pdf", 20, "pdf"⟩ : UploadData).status = "success" ∧
    ((uploadSettled selectedPage.ui ⟨2⟩
        (.responded ⟨"success", "b.pdf", 20, "pdf"⟩) 1800).uploadedDocs =
      selectedPage.ui.uploadedDocs ++
        [{ id := 1800, name := (⟨"success", "b.pdf", 20, "pdf"⟩ : UploadData).filename,
           size := (⟨"success", "b.pdf", 20, "pdf"⟩ : UploadData).size,
           type := (⟨"success", "b.pdf", 20, "pdf"⟩ : UploadData).file_type }] ∧
    ((selectedPage.ui.uploadedDocs.map (fun d => d.id)).Nodup →
      1800 ∉ selectedPage.ui.uploadedDocs.map (fun d => d.id) →
      ((uploadSettled selectedPage.ui ⟨2⟩
        (.responded ⟨"success", "b.pdf", 20, "pdf"⟩) 1800).uploadedDocs.map
          (fun d => d.id)).Nodup)) :=
  ⟨by decide,
    upload_always_appends selectedPage.ui ⟨2⟩ ⟨"success", "b.pdf", 20, "pdf"⟩ 1800
      (by decide)⟩

/-! ## Uploads, selection and grounding -/

theorem uploadSuccessText_names_file (filename : String) :
    filename.toList <:+: (uploadSuccessText filename).toList := by
  unfold uploadSuccessText
  simp only [String.toList, String.data_append]
  exact ⟨_, _, rfl⟩

/-- C21: for every successful upload response, `uploadedDocs` becomes the
prior list with one document appended at the end, carrying the name, size and
type of the response, and the log gets exactly one bot message appended, whose
text contains the name of the uploaded file. -/
theorem upload_success_appends_doc_and_message (s : State) (k : UploadCont)
    (data : UploadData) (now : Nat) (h : data.status = "success") :
    (uploadSettled s k (.responded data) now).uploadedDocs =
      s.uploadedDocs ++
        [{ id := now, name := data.filename, size := data.size, type := data.file_type }] ∧
    (uploadSettled s k (.responded data) now).messages =
      s.messages ++
        [{ id := k.baseLen + 1, type := .bot, content := uploadSuccessText data.filename }] ∧
    data.filename.toList <:+: (uploadSuccessText data.filename).toList := by
  refine ⟨?_, ?_, uploadSuccessText_names_file _⟩ <;> simp [uploadSettled, h]

theorem upload_success_appends_doc_and_message_witness :
    (⟨"success", "syllabus.pdf", 10, "pdf"⟩ : UploadData).status = "success" ∧
    ((uploadSettled mounted ⟨1⟩
        (.responded ⟨"success", "syllabus.pdf", 10, "pdf"⟩) 1700).uploadedDocs =
      mounted.uploadedDocs ++
        [{ id := 1700, name := (⟨"success", "syllabus.pdf", 10, "pdf"⟩ : UploadData).filename,
           size := (⟨"success", "syllabus.pdf", 10, "pdf"⟩ : UploadData).size,
           type := (⟨"success", "syllabus.pdf", 10, "pdf"⟩ : UploadData).file_type }] ∧
    (uploadSettled mounted ⟨1⟩
        (.responded ⟨"success", "syllabus.pdf", 10, "pdf"⟩) 1700).messages =
      mounted.messages ++
        [{ id := (⟨1⟩ : UploadCont).baseLen + 1, type := .bot,
           content := uploadSuccessText
             (⟨"success", "syllabus.pdf", 10, "pdf"⟩ : UploadData).filename }] ∧
    (⟨"success", "syllabus.pdf", 10, "pdf"⟩ : UploadData).filename.toList <:+:
      (uploadSuccessText
        (⟨"success", "syllabus.pdf", 10, "pdf"⟩ : UploadData).filename).toList) :=
  ⟨by decide,
    upload_success_appends_doc_and_message mounted ⟨1⟩
      ⟨"success", "syllabus.pdf", 10, "pdf"⟩ 1700 (by decide)⟩

/-- C22: from any state, after a document is uploaded with success and its
row, the last of the list, is clicked, `handleSendMessage` with a non-blank
text issues a request carrying that text, with `use_rag` true and exactly the
uploaded document as `selected_document`. -/
theorem upload_select_send_is_grounded (s : State) (k : UploadCont) (data : UploadData)
    (now : Nat) (text : String) (hs : data.status = "success") (ht : ¬ isBlank text) :
    ∃ q c, (handleSendMessage (setInputValue
        (selectDoc (uploadSettled s k (.responded data) now) s.uploadedDocs.length) text)).2 =
          some (q, c) ∧
      q.message = text ∧ q.use_rag = true ∧
      q.selected_document =
        some { id := now, name := data.filename, size := data.size, type := data.file_type } := by
  have hu : (uploadSettled s k (.responded data) now).uploadedDocs =
      s.uploadedDocs ++
        [{ id := now, name := data.filename, size := data.size, type := data.file_type }] := by
    simp [uploadSettled, hs]
  have hsel : selectDoc (uploadSettled s k (.responded data) now) s.uploadedDocs.length =
      { uploadSettled s k (.responded data) now with
        selectedDoc :=
          some { id := now, name := data.filename, size := data.size, type := data.file_type } } := by
    have hg : (uploadSettled s k (.responded data) now).uploadedDocs.get? s.uploadedDocs.length =
        some { id := now, name := data.filename, size := data.size, type := data.file_type } := by
      rw [hu, get?_length_append]
    simp only [selectDoc, hg]
  rw [hsel]
  rw [handleSendMessage_nonblank _ (by simpa [setInputValue] using ht)]
  refine ⟨_, _, rfl, rfl, ?_, rfl⟩
  simp [setInputValue, hu]

theorem upload_select_send_is_grounded_witness :
    (⟨"success", "syllabus.pdf", 10, "pdf"⟩ : UploadData).status = "success" ∧
    ¬ isBlank "summarize" ∧
    ∃ q c, (handleSendMessage (setInputValue
        (selectDoc (uploadSettled mounted ⟨1⟩
          (.responded ⟨"success", "syllabus.pdf", 10, "pdf"⟩) 1700)
          mounted.uploadedDocs.length) "summarize")).2 = some (q, c) ∧
      q.message = "summarize" ∧ q.use_rag = true ∧
      q.selected_document =
        some { id := 1700,
               name := (⟨"success", "syllabus.pdf", 10, "pdf"⟩ : UploadData).filename,
               size := (⟨"success", "syllabus.pdf", 10, "pdf"⟩ : UploadData).size,
               type := (⟨"success", "syllabus.pdf", 10, "pdf"⟩ : UploadData).file_type } :=
  ⟨by decide, by decide,
    upload_select_send_is_grounded mounted ⟨1⟩ ⟨"success", "syllabus.pdf", 10, "pdf"⟩ 1700
      "summarize" (by decide) (by decide)⟩

/-! ## The log only grows -/

theorem handleSendMessage_messages_prefix (s : State) :
    s.messages <+: (handleSendMessage s).1.messages := by
  unfold handleSendMessage
  split
  · exact List.prefix_refl _
  · exact List.prefix_append _ _

theorem sendSettled_messages (s : State) (k : SendCont) (o : ChatOutcome) :
    (sendSettled s k o).messages =
      s.messages ++ [{ id := k.baseLen + 2, type := .bot, content := settledContent o }] := by
  cases o <;> rfl

theorem uploadSettled_messages_prefix (s : State) (k : UploadCont) (o : UploadOutcome)
    (now : Nat) : s.messages <+: (uploadSettled s k o now).messages := by
  cases o with
  | threw e => exact List.prefix_append _ _
  | responded data =>
    unfold uploadSettled
    simp only
    split
    · exact List.prefix_append _ _
    · exact List.prefix_refl _

theorem handleDeleteDoc_messages (s : State) (docId : Nat) :
    (handleDeleteDoc s docId).messages = s.messages := by
  unfold handleDeleteDoc
  cases s.selectedDoc with
  | none => rfl
  | some d =>
    simp only
    split <;> rfl

theorem selectDoc_messages (s : State) (i : Nat) :
    (selectDoc s i).messages = s.messages := by
  unfold selectDoc
  cases s.uploadedDocs.get? i <;> rfl

theorem step_keeps_log (y : Sys) (e : Event) (h : e ≠ .clickNewChat) :
    y.ui.messages <+: (step y e).ui.messages := by
  cases e with
  | typeInput text => exact List.prefix_refl _
  | clickSendButton =>
    simp only [step, launch_ui, clickSend]
    split
    · exact List.prefix_refl _
    · exact handleSendMessage_messages_prefix _
  | keyPress key shiftKey =>
    simp only [step, launch_ui, handleKeyPress]
    split
    · exact handleSendMessage_messages_prefix _
    · exact List.prefix_refl _
  | chatSettles i o =>
    simp only [step]
    split
    · simp only [sendSettled_messages]; exact List.prefix_append _ _
    · exact List.prefix_refl _
  | chooseFile files =>
    simp only [step]
    split <;> exact List.prefix_refl _
  | uploadSettles i o now =>
    simp only [step]
    split
    · exact uploadSettled_messages_prefix _ _ _ _
    · exact List.prefix_refl _
  | clickNewChat => exact absurd rfl h
  | clickDelete docId =>
    simp only [step, handleDeleteDoc_messages]; exact List.prefix_refl _
  | clickDoc i =>
    simp only [step, selectDoc_messages]; exact List.prefix_refl _
  | clickDeselect => exact List.prefix_refl _

theorem run_keeps_log (es : List Event) (y : Sys) (h : Event.clickNewChat ∉ es) :
    y.ui.messages <+: (run y es).ui.messages := by
  induction es generalizing y with
  | nil => exact List.prefix_refl _
  | cons e es ih =>
    have he : e ≠ .clickNewChat := fun c => h (by simp [c])
    have hes : Event.clickNewChat ∉ es := fun c => h (List.mem_cons_of_mem _ c)
    exact (step_keeps_log y e he).trans (ih (step y e) hes)

/-- C23: every event other than the click on New Chat (typing, send
submission, a chat call settling with a reply or a failure, choosing a file,
an upload settling with success or failure, document delete, select,
deselect) leaves the log it found as a prefix of the log it leaves: no
message is removed, reordered or changed. -/
theorem step_is_append_only (y : Sys) (e : Event) (h : e ≠ .clickNewChat) :
    y.ui.messages <+: (step y e).ui.messages :=
  step_keeps_log y e h

set_option maxRecDepth 100000 in
theorem step_is_append_only_witness :
    Event.chatSettles 0 (.failure "timeout") ≠ .clickNewChat ∧
    oneTurnInFlight.ui.messages <+:
      (step oneTurnInFlight (.chatSettles 0 (.failure "timeout"))).ui.messages :=
  ⟨by decide,
    step_is_append_only oneTurnInFlight (.chatSettles 0 (.failure "timeout")) (by decide)⟩

/-! ## The reply text -/

theorem replyContent_eq_fallbackChainText (data : ResponseData) :
    replyContent data = fallbackChainText data := by
  obtain ⟨r, m⟩ := data
  cases r with
  | none =>
    cases m with
    | none => simp [replyContent, fallbackChainText, jsOrField, truthy, jsOr]
    | some m =>
      by_cases hm : m = "" <;> simp [replyContent, fallbackChainText, jsOrField, truthy, jsOr, hm]
  | some r =>
    by_cases hr : r = ""
    · cases m with
      | none => simp [replyContent, fallbackChainText, jsOrField, truthy, jsOr, hr]
      | some m =>
        by_cases hm : m = "" <;>
          simp [replyContent, fallbackChainText, jsOrField, truthy, jsOr, hr, hm]
    · simp [replyContent, fallbackChainText, jsOrField, truthy, jsOr, hr]

/-- C24: on a successful chat turn the text of the appended bot message
follows the fallback chain: the response field when it is a non-empty
string, otherwise the message field when it is a non-empty string, otherwise
the fixed default text. -/
theorem reply_follows_fallback_chain (s : State) (k : SendCont) (data : ResponseData) :
    (sendSettled s k (.success data)).messages =
      s.messages ++ [{ id := k.baseLen + 2, type := .bot, content := fallbackChainText data }] ∧
    (∀ r, data.response = some r → r ≠ "" → fallbackChainText data = r) ∧
    (∀ m, (data.response = none ∨ data.response = some "") → data.message = some m →
      m ≠ "" → fallbackChainText data = m) ∧
    ((data.response = none ∨ data.response = some "") →
      (data.message = none ∨ data.message = some "") →
      fallbackChainText data = defaultReplyText) ∧
    defaultReplyText = "I understood your question. Let me help you." := by
  refine ⟨?_, ?_, ?_, ?_, rfl⟩
  · rw [sendSettled_messages]; simp [settledContent, replyContent_eq_fallbackChainText]
  · intro r hr hne; simp [fallbackChainText, hr, hne]
  · intro m hr hm hne
    rcases hr with hr | hr <;> simp [fallbackChainText, hr, hm, hne]
  · intro hr hm
    rcases hr with hr | hr <;> rcases hm with hm | hm <;> simp [fallbackChainText, hr, hm]

/-- C25: when New Chat is clicked while a chat turn is in flight, `loading`
stays as it was, and when the turn then settles, with a reply or a failure,
the log holds exactly the new-chat greeting followed by the message of the
turn, whose id is the length of the log before the submission plus 2. -/
theorem newChat_during_turn_then_settle (s : State) (o : ChatOutcome)
    (h : ¬ isBlank s.inputValue) :
    ∃ q k, (handleSendMessage s).2 = some (q, k) ∧
      (handleNewChat (handleSendMessage s).1).loading = (handleSendMessage s).1.loading ∧
      (sendSettled (handleNewChat (handleSendMessage s).1) k o).messages =
        [{ id := 1, type := .bot, content := newChatGreetingText },
         { id := s.messages.length + 2, type := .bot, content := settledContent o }] := by
  rw [handleSendMessage_nonblank s h]
  refine ⟨_, _, rfl, rfl, ?_⟩
  rw [sendSettled_messages]
  rfl

set_option maxRecDepth 100000 in
theorem newChat_during_turn_then_settle_witness :
    ¬ isBlank uploadedPage.ui.inputValue ∧
    ∃ q k, (handleSendMessage uploadedPage.ui).2 = some (q, k) ∧
      (handleNewChat (handleSendMessage uploadedPage.ui).1).loading =
        (handleSendMessage uploadedPage.ui).1.loading ∧
      (sendSettled (handleNewChat (handleSendMessage uploadedPage.ui).1) k
          (.failure "timeout")).messages =
        [{ id := 1, type := .bot, content := newChatGreetingText },
         { id := uploadedPage.ui.messages.length + 2, type := .bot,
           content := settledContent (.failure "timeout") }] :=
  ⟨by decide, newChat_during_turn_then_settle uploadedPage.ui (.failure "timeout") (by decide)⟩

/-- C26: for every state and id, `handleDeleteDoc` makes `uploadedDocs` the
prior list filtered to the documents of another id, so the documents of that
id are gone and the others stay, unchanged and in their order; a selected
document of another id stays selected, and no selection stays no
selection. -/
theorem handleDeleteDoc_filters_by_id (s : State) (docId : Nat) :
    (handleDeleteDoc s docId).uploadedDocs =
      s.uploadedDocs.filter (fun doc => decide (doc.id ≠ docId)) ∧
    (handleDeleteDoc s docId).uploadedDocs.Sublist s.uploadedDocs ∧
    (∀ doc, doc ∈ (handleDeleteDoc s docId).uploadedDocs ↔
      doc ∈ s.uploadedDocs ∧ doc.id ≠ docId) ∧
    (∀ d, s.selectedDoc = some d → d.id ≠ docId →
      (handleDeleteDoc s docId).selectedDoc = s.selectedDoc) ∧
    (s.selectedDoc = none → (handleDeleteDoc s docId).selectedDoc = none) := by
  have hp : (fun doc : Doc => doc.id != docId) = (fun doc => decide (doc.id ≠ docId)) := by
    funext doc
    by_cases hd : doc.id = docId <;> simp [hd]
  have hu : (handleDeleteDoc s docId).uploadedDocs =
      s.uploadedDocs.filter (fun doc => decide (doc.id ≠ docId)) := by
    rw [← hp]
    unfold handleDeleteDoc
    cases s.selectedDoc with
    | none => rfl
    | some d =>
      simp only
      split <;> rfl
  refine ⟨hu, ?_, ?_, ?_, ?_⟩
  · rw [hu]; exact List.filter_sublist _
  · intro doc; rw [hu]; simp [List.mem_filter]
  · intro d hd hne
    unfold handleDeleteDoc
    simp [hd, hne]
  · intro hd
    unfold handleDeleteDoc
    simp [hd]

/-! ## The user message of a failed turn -/

set_option maxRecDepth 100000 in
/-- C10 fails as stated: the user message of a failed turn is the very same
record as the user message of a turn that succeeded, so nothing marks it as
failed; and when New Chat is clicked while the call is awaited, the log after
the failure is the greeting and the notice, without the user message. -/
theorem failed_user_message_not_marked :
    (chatTurn mounted ("hi", .failure "timeout")).messages.get? 1 =
      some { id := 2, type := .user, content := "hi" } ∧
    (chatTurn mounted ("hi", .success ⟨some "hello", none⟩)).messages.get? 1 =
      some { id := 2, type := .user, content := "hi" } ∧
    (run start newChatDuringFailedTurn).ui.messages =
      [{ id := 1, type := .bot, content := newChatGreetingText },
       { id := 3, type := .bot, content := chatErrorText }] := by
  decide

/-- C10, amended: for every chat turn with a non-blank text whose call fails,
whatever happens on the page between the submission and the failure other
than a click on New Chat, the originating user message is still in the log
afterwards, unchanged and at the position where it was appended, and the
failure notice is the last message of the log; the user message carries no
mark of failure, the log holding the same record there had the turn
succeeded.  When New Chat is clicked while the call is awaited, the user
message is not in the log after the failure. -/
theorem failed_turn_keeps_user_message (s : State) (error : String) (y : Sys)
    (es : List Event) (h : ¬ isBlank s.inputValue)
    (hy : y.ui = (handleSendMessage s).1) (hes : Event.clickNewChat ∉ es) :
    ∃ q k, (handleSendMessage s).2 = some (q, k) ∧
      (sendSettled (run y es).ui k (.failure error)).messages.get? s.messages.length =
        some { id := s.messages.length + 1, type := .user, content := s.inputValue } ∧
      (sendSettled (run y es).ui k (.failure error)).messages.getLast? =
        some { id := s.messages.length + 2, type := .bot, content := chatErrorText } ∧
      (∀ data, (sendSettled (run y es).ui k (.success data)).messages.get? s.messages.length =
        some { id := s.messages.length + 1, type := .user, content := s.inputValue }) ∧
      ({ id := s.messages.length + 1, type := .user, content := s.inputValue } : Message) ∉
        (sendSettled (handleNewChat (handleSendMessage s).1) k (.failure error)).messages := by
  obtain ⟨t, ht⟩ := run_keeps_log es y hes
  rw [hy, handleSendMessage_nonblank s h] at ht
  simp only [List.append_assoc, List.singleton_append] at ht
  rw [handleSendMessage_nonblank s h]
  refine ⟨_, _, rfl, ?_, ?_, ?_, ?_⟩
  · rw [sendSettled_messages, ← ht, List.append_assoc, List.cons_append]
    exact get?_length_append _ _ _
  · rw [sendSettled_messages]
    simp [settledContent]
  · intro data
    rw [sendSettled_messages, ← ht, List.append_assoc, List.cons_append]
    exact get?_length_append _ _ _
  · rw [sendSettled_messages]
    simp [handleNewChat]

set_option maxRecDepth 100000 in
theorem failed_turn_keeps_user_message_witness :
    ¬ isBlank typedHi.inputValue ∧ sentHi.ui = (handleSendMessage typedHi).1 ∧
    Event.clickNewChat ∉ uploadInBetween ∧
    ∃ q k, (handleSendMessage typedHi).2 = some (q, k) ∧
      (sendSettled (run sentHi uploadInBetween).ui k
          (.failure "timeout")).messages.get? typedHi.messages.length =
        some { id := typedHi.messages.length + 1, type := .user,
               content := typedHi.inputValue } ∧
      (sendSettled (run sentHi uploadInBetween).ui k (.failure "timeout")).messages.getLast? =
        some { id := typedHi.messages.length + 2, type := .bot, content := chatErrorText } ∧
      (∀ data, (sendSettled (run sentHi uploadInBetween).ui k
          (.success data)).messages.get? typedHi.messages.length =
        some { id := typedHi.messages.length + 1, type := .user,
               content := typedHi.inputValue }) ∧
      ({ id := typedHi.messages.length + 1, type := .user,
         content := typedHi.inputValue } : Message) ∉
        (sendSettled (handleNewChat (handleSendMessage typedHi).1) k
          (.failure "timeout")).messages :=
  ⟨by decide, by decide, by decide,
    failed_turn_keeps_user_message typedHi "timeout" sentHi uploadInBetween
      (by decide) (by decide) (by decide)⟩

end ChatBot

namespace LessonPlanner

open ChatBot

/-! ## Splitting and trimming the topics -/

theorem splitComma_ne_nil (l : List Char) : splitComma l ≠ [] := by
  cases l with
  | nil => simp [splitComma]
  | cons c cs =>
    unfold splitComma
    split
    · simp
    · split <;> simp

theorem joinComma_cons_char (c : Char) (seg : List Char) (rest : List (List Char)) :
    joinComma ((c :: seg) :: rest) = c :: joinComma (seg :: rest) := by
  cases rest <;> simp [joinComma]

theorem joinComma_splitComma (l : List Char) : joinComma (splitComma l) = l := by
  induction l with
  | nil => rfl
  | cons c cs ih =>
    unfold splitComma
    cases hs : splitComma cs with
    | nil => exact absurd hs (splitComma_ne_nil cs)
    | cons seg rest =>
      rw [hs] at ih
      by_cases hc : c = ','
      · simp [hc, joinComma, ih]
      · simp only [hc, if_false]
        rw [joinComma_cons_char, ih]

theorem splitComma_no_comma (l : List Char) : ∀ seg ∈ splitComma l, ',' ∉ seg := by
  induction l with
  | nil => simp [splitComma]
  | cons c cs ih =>
    unfold splitComma
    cases hs : splitComma cs with
    | nil => exact absurd hs (splitComma_ne_nil cs)
    | cons seg rest =>
      rw [hs] at ih
      by_cases hc : c = ','
      · intro x hx
        simp only [hc, if_true, List.mem_cons] at hx
        rcases hx with hx | hx | hx
        · simp [hx]
        · exact ih x (by simp [hx])
        · exact ih x (by simp [hx])
      · intro x hx
        simp only [hc, if_false, List.mem_cons] at hx
        rcases hx with hx | hx
        · rw [hx]
          have := ih seg (by simp)
          simp only [List.mem_cons, not_or]
          exact ⟨fun e => hc e.symm, this⟩
        · exact ih x (by simp [hx])

theorem head?_dropWhile_false {α : Type} (p : α → Bool) (l : List α) (c : α)
    (h : (l.dropWhile p).head? = some c) : p c = false := by
  have := List.head?_dropWhile_not p l
  rw [h] at this
  exact this

theorem jsTrimChars_last (l : List Char) (c : Char)
    (h : (jsTrimChars l).getLast? = some c) : isJsWhiteSpace c = false := by
  unfold jsTrimChars at h
  rw [List.getLast?_reverse] at h
  exact head?_dropWhile_false _ _ _ h

theorem jsTrimChars_head (l : List Char) (c : Char)
    (h : (jsTrimChars l).head? = some c) : isJsWhiteSpace c = false := by
  have hp : jsTrimChars l <+: l.dropWhile isJsWhiteSpace := by
    unfold jsTrimChars
    have := List.dropWhile_suffix (l := (l.dropWhile isJsWhiteSpace).reverse) isJsWhiteSpace
    rw [← List.reverse_prefix, List.reverse_reverse] at this
    exact this
  obtain ⟨t, ht⟩ := hp
  cases hj : jsTrimChars l with
  | nil => rw [hj] at h; simp at h
  | cons a r =>
    rw [hj] at h ht
    simp only [List.head?_cons, Option.some.injEq] at h
    subst h
    apply head?_dropWhile_false isJsWhiteSpace l
    rw [← ht]; rfl

theorem topicsArray_eq (topics : String) :
    topicsArray topics =
      ((splitComma topics.toList).map (fun seg => String.mk (jsTrimChars seg))).filter
        (fun t => decide (t ≠ "")) := by
  unfold topicsArray jsSplitComma
  rw [List.map_map]
  have hp : (fun t : String => t != "") = (fun t => decide (t ≠ "")) := by
    funext t
    by_cases ht : t = "" <;> simp [ht]
  rw [hp]
  rfl

/-- C28: for every topics string, no element of the topic list the handlers
send is empty or starts or ends with white space, and the list is exactly the
comma-separated segments of the input (which joined by commas give the input
back, and hold no comma), each trimmed, the empty ones dropped, in their
order; both handlers send that list. -/
theorem topicsArray_trimmed_nonempty_segments (topics : String) :
    (∀ t ∈ topicsArray topics, t ≠ "" ∧
      (∀ c, t.toList.head? = some c → isJsWhiteSpace c = false) ∧
      (∀ c, t.toList.getLast? = some c → isJsWhiteSpace c = false)) ∧
    topicsArray topics =
      ((splitComma topics.toList).map (fun seg => String.mk (jsTrimChars seg))).filter
        (fun t => decide (t ≠ "")) ∧
    joinComma (splitComma topics.toList) = topics.toList ∧
    (∀ seg ∈ splitComma topics.toList, ',' ∉ seg) ∧
    (∀ s r, (handleCreateFullLessonPlan s).2 = .createLessonPlan r →
      r.topics = topicsArray s.topics) ∧
    (∀ s r, (handleCreateWeekPlan s).2 = .createWeekPlan r →
      r.topics = topicsArray s.topics) := by
  refine ⟨?_, topicsArray_eq topics, joinComma_splitComma _, splitComma_no_comma _, ?_, ?_⟩
  · intro t ht
    rw [topicsArray_eq] at ht
    simp only [List.mem_filter, List.mem_map, decide_eq_true_eq] at ht
    obtain ⟨⟨seg, _, rfl⟩, hne⟩ := ht
    exact ⟨hne, fun c hc => jsTrimChars_head seg c hc, fun c hc => jsTrimChars_last seg c hc⟩
  · intro s r h
    unfold handleCreateFullLessonPlan at h
    split at h
    · simp at h
    · simp only [Effect.createLessonPlan.injEq] at h
      rw [← h]
  · intro s r h
    unfold handleCreateWeekPlan at h
    split at h
    · simp at h
    · simp only [Effect.createWeekPlan.injEq] at h
      rw [← h]

/-! ## The guard of the full lesson plan -/

set_option maxRecDepth 100000 in
/-- C27 fails as stated: with a chapter name and a lone comma as topics, the
parsed topic list is empty and the `createLessonPlan` request is sent all the
same, with an empty topic list. -/
theorem comma_only_topics_sends_request :
    commaOnly.chapterName ≠ "" ∧ topicsArray commaOnly.topics = [] ∧
    (handleCreateFullLessonPlan commaOnly).2 =
      .createLessonPlan
        { chapter_name := "Algebra", topics := [], lectures_per_week := some 3,
          total_weeks := some 4, class_level := "high school" } := by
  decide

/-- C27, amended: `handleCreateFullLessonPlan` issues the `createLessonPlan`
request exactly when the chapter name is not empty and the topics text is not
blank; for every blank topics text, and for an empty chapter name, no request
is sent and the alert is shown. -/
theorem lesson_plan_request_iff_filled (s : State) :
    ((∃ r, (handleCreateFullLessonPlan s).2 = .createLessonPlan r) ↔
      (s.chapterName ≠ "" ∧ ¬ isBlank s.topics)) ∧
    (isBlank s.topics →
      handleCreateFullLessonPlan s = (s, .alert "Please fill in chapter name and topics")) ∧
    (s.chapterName = "" →
      handleCreateFullLessonPlan s = (s, .alert "Please fill in chapter name and topics")) := by
  have hb := jsTrim_eq_empty_iff s.topics
  refine ⟨?_, ?_, ?_⟩
  · unfold handleCreateFullLessonPlan
    by_cases hg : s.chapterName = "" ∨ jsTrim s.topics = ""
    · rw [if_pos hg]
      constructor
      · rintro ⟨r, hr⟩; simp at hr
      · rintro ⟨h1, h2⟩
        rcases hg with hg | hg
        · exact absurd hg h1
        · exact absurd (hb.1 hg) h2
    · rw [if_neg hg]
      simp only [not_or] at hg
      exact ⟨fun _ => ⟨hg.1, fun h => hg.2 (hb.2 h)⟩, fun _ => ⟨_, rfl⟩⟩
  · intro h
    unfold handleCreateFullLessonPlan
    rw [if_pos (Or.inr (hb.2 h))]
  · intro h
    unfold handleCreateFullLessonPlan
    rw [if_pos (Or.inl h)]

end LessonPlanner

namespace App

set_option maxRecDepth 100000 in
/-- C29, evaluated on the code: every sidebar path and every dashboard path is
a declared route, but the logout handler navigates to "/auth", which no route
of `App` declares, so not every navigation target is a route. -/
theorem logout_target_is_not_a_route :
    (∀ p ∈ menuItems.map (fun item => item.1), isRoute p = true) ∧
    (∀ p ∈ features.map (fun f => f.2), isRoute p = true) ∧
    (handleLogout []).2 = "/auth" ∧ isRoute (handleLogout []).2 = false ∧
    ¬ (∀ p ∈ navigationTargets, isRoute p = true) := by
  decide

end App

namespace StudentAnalytics

/-- C30: for every non-empty `recent_scores` of length n, the chart has n
labels and n data values, the label at position j is "Score " followed by
n - j and the value there is the score of entry n - 1 - j, so every score
sits under the number of its own position counted from one; for a missing
`analytics`, a missing list or an empty list the chart data is null. -/
theorem performanceChartData_reversed_labels_and_scores {ν : Type}
    (rs : List (RecentScore ν)) (h : rs ≠ []) :
    (∃ labels data,
      performanceChartData (some ⟨some rs⟩) =
        some { labels := labels, datasets := [{ label := "Score Trend", data := data }] } ∧
      labels.length = rs.length ∧ data.length = rs.length ∧
      ∀ j, j < rs.length →
        labels[j]? = some ("Score " ++ toString (rs.length - j)) ∧
        data[j]? = (rs[rs.length - 1 - j]?).map (fun s => s.score)) ∧
    performanceChartData (none : Option (Analytics ν)) = none ∧
    performanceChartData (some (⟨none⟩ : Analytics ν)) = none ∧
    performanceChartData (some (⟨some []⟩ : Analytics ν)) = none := by
  have hpos : rs.length > 0 := List.length_pos.2 h
  refine ⟨⟨(rs.mapIdx (fun i _ => "Score " ++ toString (i + 1))).reverse,
    (rs.map (fun s => s.score)).reverse, ?_, ?_, ?_, ?_⟩, rfl, rfl, rfl⟩
  · simp only [performanceChartData, hpos, if_true]
  · simp
  · simp
  · intro j hj
    constructor
    · rw [List.getElem?_reverse (by simpa using hj), List.getElem?_mapIdx, List.length_mapIdx]
      have hlt : rs.length - 1 - j < rs.length := by omega
      rw [List.getElem?_eq_getElem hlt]
      simp only [Option.map_some']
      congr 3
      omega
    · rw [List.getElem?_reverse (by simpa using hj), List.length_map, List.getElem?_map]

theorem performanceChartData_reversed_labels_and_scores_witness :
    ([⟨70⟩, ⟨80⟩, ⟨90⟩] : List (RecentScore Nat)) ≠ [] ∧
    ((∃ labels data,
      performanceChartData (some ⟨some ([⟨70⟩, ⟨80⟩, ⟨90⟩] : List (RecentScore Nat))⟩) =
        some { labels := labels, datasets := [{ label := "Score Trend", data := data }] } ∧
      labels.length = ([⟨70⟩, ⟨80⟩, ⟨90⟩] : List (RecentScore Nat)).length ∧
      data.length = ([⟨70⟩, ⟨80⟩, ⟨90⟩] : List (RecentScore Nat)).length ∧
      ∀ j, j < ([⟨70⟩, ⟨80⟩, ⟨90⟩] : List (RecentScore Nat)).length →
        labels[j]? = some ("Score " ++
          toString (([⟨70⟩, ⟨80⟩, ⟨90⟩] : List (RecentScore Nat)).length - j)) ∧
        data[j]? = (([⟨70⟩, ⟨80⟩, ⟨90⟩] : List (RecentScore Nat))[
          ([⟨70⟩, ⟨80⟩, ⟨90⟩] : List (RecentScore Nat)).length - 1 - j]?).map
            (fun s => s.score)) ∧
    performanceChartData (none : Option (Analytics Nat)) = none ∧
    performanceChartData (some (⟨none⟩ : Analytics Nat)) = none ∧
    performanceChartData (some (⟨some []⟩ : Analytics Nat)) = none) :=
  ⟨List.cons_ne_nil _ _,
    performanceChartData_reversed_labels_and_scores [⟨70⟩, ⟨80⟩, ⟨90⟩] (List.cons_ne_nil _ _)⟩

end StudentAnalytics
